import Mathlib

/-!
# Channel (websocket-rails-client, channel.cpp)

A shallow embedding of `Channel` from `src/websocket-rails-client/channel.cpp`.
Every member function is a pure function on the channel state.  The channel
holds a pointer to the dispatcher (`WebsocketRails`); the state of the pointee
is carried in the field `dispatcher` of the channel record, so that
`this->dispatcher->triggerEvent(event)` is an update of that field.
The mutexes are not modelled: the embedding is the sequential behaviour.
-/

/-! ## JSON values (jsonxx) -/

/-- A jsonxx value.  The channel never looks inside a number, so the numeric
content is kept as an integer. -/
inductive Value where
  | null : Value
  | boolean : Bool → Value
  | number : Int → Value
  | string : String → Value
  | array : List Value → Value
  | object : List (String × Value) → Value

/-- The type jsonxx::Object: a map from keys to values (a std::map in jsonxx),
kept as a list of bindings ordered by key. -/
abbrev Object := List (String × Value)

/-- The type jsonxx::Array: a sequence of values. -/
abbrev JsonArray := List Value

/-- Modelled from the spec: jsonxx::Object::import(key, value) is not under src.
It sets `key` to `value`, replacing the value the key had, if any; the other
keys are left alone.  The bindings stay ordered by key, as in a std::map. -/
def Object.importKey : Object → String → Value → Object
  | [], key, value => [(key, value)]
  | (k, v) :: rest, key, value =>
    if key = k then (key, value) :: rest
    else if key < k then (key, value) :: (k, v) :: rest
    else (k, v) :: Object.importKey rest key value

/-- Modelled from the spec: jsonxx::Object::get<jsonxx::String>(key) is not
under src.  It returns the string stored at `key`; when the key is missing or
holds a value that is not a string the assertion of jsonxx fails (`none`). -/
def Object.getString : Object → String → Option String
  | [], _ => none
  | (k, v) :: rest, key =>
    if key = k then
      match v with
      | Value.string s => some s
      | _ => none
    else Object.getString rest key

/-- Modelled from the spec: `data.get<jsonxx::Object>(1).import(key, value)` on a
jsonxx::Array: the object at index `i` of the array gets `key` set to `value`.
When index `i` holds no object the assertion of jsonxx fails; the array is then
left as it is (this never happens on an array built by `initEventData`). -/
def JsonArray.importAt (data : JsonArray) (i : Nat) (key : String) (value : Value) : JsonArray :=
  match data.get? i with
  | some (Value.object o) => data.set i (Value.object (Object.importKey o key value))
  | _ => data

/-! ## Callbacks, events, dispatcher -/

/-- A callback (`cb_func`, a std::function taking a jsonxx::Object) is known by
its identity. -/
abbrev cb_func := Nat

/-- Modelled from the spec: the class Event (event.hpp) is not under src.  An
event is the envelope array it was constructed from, with the optional success
and failure continuations (`none` for an empty std::function and for the
constructor that takes the array only). -/
structure Event where
  data : JsonArray
  success_callback : Option cb_func
  failure_callback : Option cb_func

/-- The constructor `Event(data)`. -/
def Event.mk1 (data : JsonArray) : Event :=
  { data := data, success_callback := none, failure_callback := none }

/-- Modelled from the spec: the class WebsocketRails (websocket_rails.hpp), the
dispatcher, is not under src.  Its state is `conn`, the connection id of the
live transport connection (`none` when `getConn()` is NULL), and `sent`, the
events handed to `triggerEvent` so far, oldest first. -/
structure WebsocketRails where
  conn : Option String
  sent : List Event

/-- Modelled from the spec: `triggerEvent(event)` hands the event to the
dispatcher for transmission; it does not call back into the channel. -/
def WebsocketRails.triggerEvent (d : WebsocketRails) (event : Event) : WebsocketRails :=
  { d with sent := d.sent ++ [event] }

/-- The expression
`dispatcher->getConn() != NULL ? dispatcher->getConn()->getConnectionId() : ""`. -/
def WebsocketRails.currentConnectionId (d : WebsocketRails) : String :=
  match d.conn with
  | some id => id
  | none => ""

/-- The type `map_vec_cb_func`: a std::map from event names to vectors of
callbacks.  `none` at a key means that the map has no entry for the key. -/
abbrev map_vec_cb_func := String → Option (List cb_func)

/-- The empty map (`callbacks.clear()`, and the map of a new channel). -/
def map_vec_cb_func.clear : map_vec_cb_func := fun _ => none

/-- The assignment `callbacks[key] = v`. -/
def map_vec_cb_func.set (m : map_vec_cb_func) (key : String) (v : List cb_func) :
    map_vec_cb_func :=
  fun k => if k = key then some v else m k

/-- The call `callbacks.erase(key)`. -/
def map_vec_cb_func.erase (m : map_vec_cb_func) (key : String) : map_vec_cb_func :=
  fun k => if k = key then none else m k

/-- The call `callbacks[key].push_back(callback)`; `operator[]` makes an empty
vector when the key has no entry. -/
def map_vec_cb_func.push_back (m : map_vec_cb_func) (key : String) (callback : cb_func) :
    map_vec_cb_func :=
  match m key with
  | some v => m.set key (v ++ [callback])
  | none => m.set key [callback]

/-! ## The channel -/

/-- The data members of `Channel`.  `dispatcher` is the state of the dispatcher
the channel points to. -/
structure Channel where
  name : String
  is_private : Bool
  on_success : Option cb_func
  on_failure : Option cb_func
  connection_id : String
  token : String
  callbacks : map_vec_cb_func
  event_queue : List Event
  empty : List Event
  dispatcher : WebsocketRails

/-- What running a callback does: a callback is a closure and may change the
channel and its dispatcher in any way. -/
abbrev cb_effect := cb_func → Object → Channel → Channel

/-- The member `getConnectionId`. -/
def Channel.getConnectionId (c : Channel) : String := c.connection_id

/-- The member `setConnectionId`. -/
def Channel.setConnectionId (c : Channel) (connection_id : String) : Channel :=
  { c with connection_id := connection_id }

/-- The member `getToken`. -/
def Channel.getToken (c : Channel) : String := c.token

/-- The member `setToken`. -/
def Channel.setToken (c : Channel) (token : String) : Channel :=
  { c with token := token }

/-- The member `initEventData`: the array
`[event_name, {data: {channel: name}}, connection_id]`. -/
def Channel.initEventData (c : Channel) (event_name : String) : JsonArray :=
  let event_data : Object :=
    Object.importKey [] "data" (Value.object (Object.importKey [] "channel" (Value.string c.name)))
  [Value.string event_name, Value.object event_data, Value.string c.getConnectionId]

/-- The member `initObject`, run by both constructors. -/
def Channel.initObject (c : Channel) : Channel :=
  let event_name :=
    if c.is_private then "websocket_rails.subscribe_private" else "websocket_rails.subscribe"
  let c1 := c.setConnectionId c.dispatcher.currentConnectionId
  let data := c1.initEventData event_name
  let event : Event :=
    { data := data, success_callback := c1.on_success, failure_callback := c1.on_failure }
  { c1 with dispatcher := c1.dispatcher.triggerEvent event }

/-- The members of a channel before the body of a constructor runs: the strings,
the map and the two queues are default-constructed. -/
def Channel.fresh (name : String) (dispatcher : WebsocketRails) (is_private : Bool) : Channel :=
  { name := name, is_private := is_private, on_success := none, on_failure := none,
    connection_id := "", token := "", callbacks := map_vec_cb_func.clear,
    event_queue := [], empty := [], dispatcher := dispatcher }

/-- The constructor `Channel(name, dispatcher, is_private)`. -/
def Channel.new (name : String) (dispatcher : WebsocketRails) (is_private : Bool) : Channel :=
  (Channel.fresh name dispatcher is_private).initObject

/-- The constructor `Channel(name, dispatcher, is_private, on_success, on_failure)`. -/
def Channel.newWith (name : String) (dispatcher : WebsocketRails) (is_private : Bool)
    (on_success on_failure : Option cb_func) : Channel :=
  ({ Channel.fresh name dispatcher is_private with
      on_success := on_success, on_failure := on_failure }).initObject

/-- The member `destroy`. -/
def Channel.destroy (c : Channel) (success_callback failure_callback : Option cb_func) :
    Channel :=
  let c1 :=
    if c.getConnectionId = c.dispatcher.currentConnectionId then
      let event_name := "websocket_rails.unsubscribe"
      let data := c.initEventData event_name
      let event : Event :=
        { data := data, success_callback := success_callback,
          failure_callback := failure_callback }
      { c with dispatcher := c.dispatcher.triggerEvent event }
    else c
  { c1 with callbacks := map_vec_cb_func.clear }

/-- The member `bind`. -/
def Channel.bind (c : Channel) (event_name : String) (callback : cb_func) : Channel :=
  let callbacks :=
    if c.callbacks event_name = none then c.callbacks.set event_name [] else c.callbacks
  { c with callbacks := callbacks.push_back event_name callback }

/-- The member `unbindAll`. -/
def Channel.unbindAll (c : Channel) (event_name : String) : Channel :=
  if c.callbacks event_name ≠ none then
    { c with callbacks := c.callbacks.erase event_name }
  else c

/-- The array both overloads of `trigger` build before they decide. -/
def Channel.triggerData (c : Channel) (event_name : String) (event_data : Object) : JsonArray :=
  let data := c.initEventData event_name
  let data := data.importAt 1 "channel" (Value.string c.name)
  let data := data.importAt 1 "data" (Value.object event_data)
  data.importAt 1 "token" (Value.string c.getToken)

/-- The queueing or sending of an event, the tail of both overloads of `trigger`. -/
def Channel.queueOrSend (c : Channel) (event : Event) : Channel :=
  if c.getToken = "" then
    { c with event_queue := c.event_queue ++ [event] }
  else
    { c with dispatcher := c.dispatcher.triggerEvent event }

/-- The member `trigger(event_name, event_data)`. -/
def Channel.trigger (c : Channel) (event_name : String) (event_data : Object) : Channel :=
  let data := c.triggerData event_name event_data
  let event := Event.mk1 data
  c.queueOrSend event

/-- The member `trigger(event_name, event_data, success_callback, failure_callback)`. -/
def Channel.triggerWith (c : Channel) (event_name : String) (event_data : Object)
    (success_callback failure_callback : Option cb_func) : Channel :=
  let data := c.triggerData event_name event_data
  let event : Event :=
    { data := data, success_callback := success_callback,
      failure_callback := failure_callback }
  c.queueOrSend event

/-- The member `getName`. -/
def Channel.getName (c : Channel) : String := c.name

/-- The member `getCallbacks`. -/
def Channel.getCallbacks (c : Channel) : map_vec_cb_func := c.callbacks

/-- The member `setCallbacks`. -/
def Channel.setCallbacks (c : Channel) (callbacks : map_vec_cb_func) : Channel :=
  { c with callbacks := callbacks }

/-- The member `isPrivate`. -/
def Channel.isPrivate (c : Channel) : Bool := c.is_private

/-- The while loop of `flush_queue`: the front event is handed to the dispatcher
and popped, until the queue is empty.  The result is the queue left over and the
dispatcher. -/
def Channel.flushLoop : List Event → WebsocketRails → List Event × WebsocketRails
  | [], d => ([], d)
  | event :: rest, d => Channel.flushLoop rest (d.triggerEvent event)

/-- The member `flush_queue`: the loop, then `std::swap(event_queue, empty)`.
The queue it returns is the field `event_queue` of the result. -/
def Channel.flush_queue (c : Channel) : Channel :=
  let r := Channel.flushLoop c.event_queue c.dispatcher
  { c with event_queue := c.empty, empty := r.1, dispatcher := r.2 }

/-- The for loop of `dispatch`: every callback of the copied vector is called with
`event_data`, in order.  The result is the channel after the calls and the list
of the calls made. -/
def Channel.invokeAll (run : cb_effect) (event_data : Object) :
    List cb_func → Channel → Channel × List (cb_func × Object)
  | [], c => (c, [])
  | callback :: rest, c =>
    let r := Channel.invokeAll run event_data rest (run callback event_data c)
    (r.1, (callback, event_data) :: r.2)

/-- The member `dispatch`.  `run` says what the callbacks do when they are
called.  The result is `none` when the token event has no string `token`
(the assertion of jsonxx fails), otherwise the channel afterwards and the
callback calls made, in order. -/
def Channel.dispatch (run : cb_effect) (c : Channel) (event_name : String)
    (event_data : Object) : Option (Channel × List (cb_func × Object)) :=
  if event_name = "websocket_rails.channel_token" then
    let c1 := c.setConnectionId c.dispatcher.currentConnectionId
    match event_data.getString "token" with
    | none => none
    | some token => some ((c1.setToken token).flush_queue, [])
  else
    match c.callbacks event_name with
    | none => some (c, [])
    | some event_callbacks => some (Channel.invokeAll run event_data event_callbacks c)

/-! ## Sequences of calls -/

/-- A run of `bind` calls, oldest first. -/
def Channel.bindAll (c : Channel) : List (String × cb_func) → Channel
  | [] => c
  | (event_name, callback) :: rest => (c.bind event_name callback).bindAll rest

/-- A call of one of the two overloads of `trigger`. -/
inductive TriggerCall where
  | plain (event_name : String) (event_data : Object) : TriggerCall
  | withCallbacks (event_name : String) (event_data : Object)
      (success_callback failure_callback : Option cb_func) : TriggerCall

/-- The event a `trigger` call builds on channel `c`. -/
def TriggerCall.event (c : Channel) : TriggerCall → Event
  | TriggerCall.plain event_name event_data => Event.mk1 (c.triggerData event_name event_data)
  | TriggerCall.withCallbacks event_name event_data success_callback failure_callback =>
    { data := c.triggerData event_name event_data, success_callback := success_callback,
      failure_callback := failure_callback }

/-- The channel after a `trigger` call. -/
def Channel.applyTrigger (c : Channel) : TriggerCall → Channel
  | TriggerCall.plain event_name event_data => c.trigger event_name event_data
  | TriggerCall.withCallbacks event_name event_data success_callback failure_callback =>
    c.triggerWith event_name event_data success_callback failure_callback

/-- A run of `trigger` calls, oldest first. -/
def Channel.triggerAll (c : Channel) : List TriggerCall → Channel
  | [] => c
  | call :: rest => (c.applyTrigger call).triggerAll rest

/-- The envelope `[event_name, {channel: name, data: event_data, token: token}, id]`. -/
def envelope (event_name name : String) (event_data : Object) (token id : String) : JsonArray :=
  [Value.string event_name,
   Value.object [("channel", Value.string name), ("data", Value.object event_data),
                 ("token", Value.string token)],
   Value.string id]

/-- The envelope `[event_name, {data: {channel: name}}, id]` of the subscribe and
unsubscribe events. -/
def handshakeEnvelope (event_name name id : String) : JsonArray :=
  [Value.string event_name,
   Value.object [("data", Value.object [("channel", Value.string name)])],
   Value.string id]

/-! ## Runs of channel operations -/

/-- A step of the environment, not a member of `Channel`: the transport of the
dispatcher reconnects or drops, so that `getConn()` changes. -/
def Channel.reconnect (c : Channel) (conn : Option String) : Channel :=
  { c with dispatcher := { c.dispatcher with conn := conn } }

/-- A call of a public member of the channel, or a reconnect of the transport. -/
inductive Op where
  | bind (event_name : String) (callback : cb_func) : Op
  | unbindAll (event_name : String) : Op
  | setCallbacks (callbacks : map_vec_cb_func) : Op
  | trigger (call : TriggerCall) : Op
  | dispatch (event_name : String) (event_data : Object) : Op
  | destroy (success_callback failure_callback : Option cb_func) : Op
  | reconnect (conn : Option String) : Op

/-- The channel after one operation; `none` when `dispatch` fails. -/
def Channel.step (run : cb_effect) (c : Channel) : Op → Option Channel
  | Op.bind event_name callback => some (c.bind event_name callback)
  | Op.unbindAll event_name => some (c.unbindAll event_name)
  | Op.setCallbacks callbacks => some (c.setCallbacks callbacks)
  | Op.trigger call => some (c.applyTrigger call)
  | Op.dispatch event_name event_data =>
    (Channel.dispatch run c event_name event_data).map Prod.fst
  | Op.destroy success_callback failure_callback =>
    some (c.destroy success_callback failure_callback)
  | Op.reconnect conn => some (c.reconnect conn)

/-- The channel after a run of operations, oldest first. -/
def Channel.runOps (run : cb_effect) : Channel → List Op → Option Channel
  | c, [] => some c
  | c, op :: rest =>
    match c.step run op with
    | none => none
    | some c2 => Channel.runOps run c2 rest

/-- The events built by the `trigger` calls of one operation on channel `c`. -/
def Op.built (c : Channel) : Op → List Event
  | Op.trigger call => [TriggerCall.event c call]
  | _ => []

/-- The events built by all `trigger` calls of a run of operations, in call order;
each is built on the channel as it is when the call is made. -/
def Channel.builtBy (run : cb_effect) : Channel → List Op → List Event
  | _, [] => []
  | c, op :: rest =>
    match c.step run op with
    | none => []
    | some c2 => Op.built c op ++ Channel.builtBy run c2 rest

/-- An event has the shape of the envelopes `trigger` builds: the payload has the
keys `channel`, `data` and `token`.  The subscribe and unsubscribe envelopes have
the one key `data`. -/
def Event.isTrigger (ev : Event) : Bool :=
  match ev.data with
  | [_, Value.object o, _] => decide (o.map Prod.fst = ["channel", "data", "token"])
  | _ => false

/-- Callbacks that change nothing but the callback registry of the channel, as
callbacks that call `bind`, `unbindAll` or `setCallbacks` do. -/
def cb_effect.registryOnly (run : cb_effect) : Prop :=
  ∀ cb d c, run cb d c = { c with callbacks := (run cb d c).callbacks }

/-- The state the members keep from construction on: the auxiliary queue `empty`
is empty, a non-empty token goes with an empty pending queue, and the pending
queue holds envelopes built by `trigger` only. -/
def Channel.Inv (c : Channel) : Prop :=
  c.empty = [] ∧ (c.token ≠ "" → c.event_queue = []) ∧
    ∀ ev ∈ c.event_queue, ev.isTrigger = true

/-! ## The mutexes of the pending queue -/

/-- The mutexes of the dispatcher that channel.cpp names. -/
inductive Mutex where
  | ch_callbacks_mutex : Mutex
  | ch_event_queue_mutex : Mutex
  | ch_connection_id_mutex : Mutex
  | ch_token_mutex : Mutex
  | event_queue_mutex : Mutex
  deriving DecidableEq

/-- The mutex both overloads of `trigger` hold around `event_queue.push(event)`. -/
def Channel.triggerGuard : Mutex := Mutex.ch_event_queue_mutex

/-- The mutex `flush_queue` holds around its loop and its swap. -/
def Channel.flush_queueGuard : Mutex := Mutex.event_queue_mutex

/-- A schedule that two different mutexes allow: while `flush_queue` is between
the end of its loop and its swap, another thread, which read the token while it
was still empty, runs `event_queue.push(event)` of `trigger`. -/
def Channel.flush_queue_racing (c : Channel) (event : Event) : Channel :=
  let r := Channel.flushLoop c.event_queue c.dispatcher
  let pushed := r.1 ++ [event]
  { c with event_queue := c.empty, empty := pushed, dispatcher := r.2 }

/-! ## Concrete inputs -/

/-- A dispatcher with no live connection that has sent nothing. -/
def noConn : WebsocketRails := { conn := none, sent := [] }

/-- Callbacks that leave the channel alone. -/
def idle : cb_effect := fun _ _ c => c

/-- The channel of the scenarios: `Channel("orders", dispatcher, false)`. -/
def orders : Channel := Channel.new "orders" noConn false

/-- Callbacks that call back into the registry: callback 1 binds callback 2 to
"order.created", callback 3 removes the list of "order.created". -/
def rebinding : cb_effect := fun cb _ c =>
  if cb = 1 then c.bind "order.created" 2
  else if cb = 3 then c.unbindAll "order.created"
  else c

/-- A dispatcher connected under the id "A" that has sent nothing. -/
def connA : WebsocketRails := { conn := some "A", sent := [] }

/-- A run of operations on the channel "orders": a `bind`, a `trigger`, the
token-grant event with token "T1", and another `trigger`. -/
def ordersOps : List Op :=
  [Op.bind "order.created" 1, Op.trigger (TriggerCall.plain "ping" []),
   Op.dispatch "websocket_rails.channel_token" [("token", Value.string "T1")],
   Op.trigger (TriggerCall.plain "pong" [])]

/-- The channel "orders" after the run `ordersOps`, member call by member call. -/
def ordersAfterOps : Channel :=
  Channel.trigger
    (Channel.flush_queue
      (Channel.setToken
        (Channel.setConnectionId
          (Channel.trigger
            (Channel.bind (Channel.newWith "orders" noConn false none none) "order.created" 1)
            "ping" [])
          "")
        "T1"))
    "pong" []

/-! ## Lemmas -/

theorem Channel.initEventData_eq (c : Channel) (event_name : String) :
    c.initEventData event_name = handshakeEnvelope event_name c.name c.connection_id := by
  simp [Channel.initEventData, handshakeEnvelope, Object.importKey, Channel.getConnectionId]

theorem Channel.triggerData_eq (c : Channel) (event_name : String) (event_data : Object) :
    c.triggerData event_name event_data
      = envelope event_name c.name event_data c.token c.connection_id := by
  simp [Channel.triggerData, Channel.getToken, Channel.initEventData, JsonArray.importAt,
    Object.importKey, Channel.getConnectionId, envelope]
  rw [if_neg (by decide), if_neg (by decide)]

theorem Channel.flushLoop_eq (q : List Event) (d : WebsocketRails) :
    Channel.flushLoop q d = ([], { d with sent := d.sent ++ q }) := by
  induction q generalizing d with
  | nil => simp [Channel.flushLoop]
  | cons ev rest ih =>
    simp [Channel.flushLoop, ih, WebsocketRails.triggerEvent]

theorem Channel.invokeAll_calls (run : cb_effect) (event_data : Object)
    (cbs : List cb_func) (c : Channel) :
    (Channel.invokeAll run event_data cbs c).2 = cbs.map (fun cb => (cb, event_data)) := by
  induction cbs generalizing c with
  | nil => rfl
  | cons cb rest ih => simp [Channel.invokeAll, ih]

theorem Channel.bind_callbacks (c : Channel) (event_name : String) (callback : cb_func)
    (k : String) :
    (c.bind event_name callback).callbacks k
      = if k = event_name then some ((c.callbacks event_name).getD [] ++ [callback])
        else c.callbacks k := by
  unfold Channel.bind
  cases h : c.callbacks event_name with
  | none =>
    by_cases hk : k = event_name <;>
      simp [map_vec_cb_func.push_back, map_vec_cb_func.set, hk]
  | some v =>
    by_cases hk : k = event_name <;>
      simp [map_vec_cb_func.push_back, map_vec_cb_func.set, hk, h]

theorem Channel.bindAll_callbacks (c : Channel) (binds : List (String × cb_func))
    (e : String) :
    (c.bindAll binds).callbacks e
      = if (c.callbacks e).isSome ∨ (binds.filter (fun b => b.1 = e)) ≠ [] then
          some ((c.callbacks e).getD [] ++ (binds.filter (fun b => b.1 = e)).map Prod.snd)
        else none := by
  induction binds generalizing c with
  | nil =>
    cases h : c.callbacks e <;> simp [Channel.bindAll, h]
  | cons b rest ih =>
    obtain ⟨name, cb⟩ := b
    rw [Channel.bindAll, ih, Channel.bind_callbacks]
    by_cases hk : e = name
    · subst hk
      simp
    · have hk2 : ¬ name = e := fun h => hk h.symm
      have hf : List.filter (fun b : String × cb_func => decide (b.1 = e)) ((name, cb) :: rest)
          = List.filter (fun b : String × cb_func => decide (b.1 = e)) rest := by
        simp [List.filter_cons, hk2]
      rw [hf, if_neg hk]

theorem TriggerCall.event_congr (c c2 : Channel) (call : TriggerCall)
    (hn : c2.name = c.name) (ht : c2.token = c.token)
    (hi : c2.connection_id = c.connection_id) :
    TriggerCall.event c2 call = TriggerCall.event c call := by
  cases call <;> simp [TriggerCall.event, Channel.triggerData_eq, hn, ht, hi]

theorem Channel.applyTrigger_queued (c : Channel) (call : TriggerCall) (h : c.token = "") :
    c.applyTrigger call
      = { c with event_queue := c.event_queue ++ [TriggerCall.event c call] } := by
  cases call <;>
    simp [Channel.applyTrigger, Channel.trigger, Channel.triggerWith, Channel.queueOrSend,
      Channel.getToken, h, TriggerCall.event]

theorem Channel.applyTrigger_sent (c : Channel) (call : TriggerCall) (h : c.token ≠ "") :
    c.applyTrigger call
      = { c with dispatcher :=
            { c.dispatcher with sent := c.dispatcher.sent ++ [TriggerCall.event c call] } } := by
  cases call <;>
    simp [Channel.applyTrigger, Channel.trigger, Channel.triggerWith, Channel.queueOrSend,
      Channel.getToken, h, TriggerCall.event, WebsocketRails.triggerEvent]

theorem Channel.triggerAll_queued (c : Channel) (calls : List TriggerCall)
    (h : c.token = "") :
    c.triggerAll calls
      = { c with event_queue := c.event_queue ++ calls.map (TriggerCall.event c) } := by
  induction calls generalizing c with
  | nil => simp [Channel.triggerAll]
  | cons call rest ih =>
    have hc : ∀ x, TriggerCall.event
        { c with event_queue := c.event_queue ++ [TriggerCall.event c call] } x
          = TriggerCall.event c x :=
      fun x => TriggerCall.event_congr c _ x rfl rfl rfl
    rw [Channel.triggerAll, Channel.applyTrigger_queued c call h, ih]
    · simp [hc]
    · exact h

theorem Channel.triggerAll_sent (c : Channel) (calls : List TriggerCall)
    (h : c.token ≠ "") :
    c.triggerAll calls
      = { c with dispatcher :=
            { c.dispatcher with
              sent := c.dispatcher.sent ++ calls.map (TriggerCall.event c) } } := by
  induction calls generalizing c with
  | nil => simp [Channel.triggerAll]
  | cons call rest ih =>
    have hc : ∀ x, TriggerCall.event
        { c with dispatcher :=
            { c.dispatcher with sent := c.dispatcher.sent ++ [TriggerCall.event c call] } } x
          = TriggerCall.event c x :=
      fun x => TriggerCall.event_congr c _ x rfl rfl rfl
    rw [Channel.triggerAll, Channel.applyTrigger_sent c call h, ih]
    · simp [hc]
    · exact h

theorem Channel.dispatch_token (run : cb_effect) (c : Channel) (event_data : Object)
    (token : String) (h : event_data.getString "token" = some token) :
    Channel.dispatch run c "websocket_rails.channel_token" event_data
      = some ({ c with
                connection_id := c.dispatcher.currentConnectionId,
                token := token,
                event_queue := c.empty,
                empty := [],
                dispatcher := { c.dispatcher with sent := c.dispatcher.sent ++ c.event_queue } },
              []) := by
  simp [Channel.dispatch, h, Channel.flush_queue, Channel.flushLoop_eq, Channel.setToken,
    Channel.setConnectionId]

/-! ## C1: dispatch of an ordinary event -/

/-- C1: for an event name `e` other than the token-grant name, after any run of
`bind` calls on any channel, `dispatch(e, data)` returns and the callback calls it
makes are exactly the callbacks in the list of `e`, in the order in which they
were bound (those the channel already held for `e`, then those of the run bound
to `e`), each with `data`; a callback bound k times is called k times, and
callbacks bound to other names are not called.  This holds whatever the
callbacks do when they run. -/
theorem C1_dispatch_invokes_bound_in_order (run : cb_effect) (c : Channel)
    (binds : List (String × cb_func)) (e : String) (data : Object)
    (he : e ≠ "websocket_rails.channel_token") :
    (Channel.dispatch run (c.bindAll binds) e data).map Prod.snd
      = some (((c.callbacks e).getD []
                ++ (binds.filter (fun b => b.1 = e)).map Prod.snd).map
              (fun cb => (cb, data))) := by
  unfold Channel.dispatch
  rw [if_neg he, Channel.bindAll_callbacks]
  by_cases h : (c.callbacks e).isSome ∨ (binds.filter (fun b => b.1 = e)) ≠ []
  · rw [if_pos h]
    simp [Channel.invokeAll_calls]
  · rw [if_neg h]
    have h1 : c.callbacks e = none := by
      cases hc : c.callbacks e with
      | none => rfl
      | some v => exact absurd (Or.inl (by simp [hc])) h
    have h2 : binds.filter (fun b => b.1 = e) = [] := by
      by_contra hne
      exact h (Or.inr hne)
    simp [h1, h2]

/-- Witness of C1: on the new channel "orders", after binding callbacks 1, 3 and 1
again to "order.created" and callback 2 to "other", dispatch of "order.created"
calls 1, 3, 1 in that order. -/
theorem C1_witness :
    "order.created" ≠ "websocket_rails.channel_token" ∧
    (Channel.dispatch idle
        (orders.bindAll [("order.created", 1), ("other", 2), ("order.created", 3),
          ("order.created", 1)])
        "order.created" [("id", Value.number 5)]).map Prod.snd
      = some [(1, [("id", Value.number 5)]), (3, [("id", Value.number 5)]),
              (1, [("id", Value.number 5)])] :=
  ⟨by decide, by
    simpa [orders, Channel.new, Channel.initObject, Channel.fresh, Channel.setConnectionId,
      map_vec_cb_func.clear] using
      C1_dispatch_invokes_bound_in_order idle orders
        [("order.created", 1), ("other", 2), ("order.created", 3), ("order.created", 1)]
        "order.created" [("id", Value.number 5)] (by decide)⟩

/-! ## C2: trigger queues or sends -/

/-- C2: for every channel, event name and payload, when the stored token is empty
`trigger` leaves the dispatcher as it was and appends exactly one event, the
envelope it built, to the end of the pending queue; when the stored token is not
empty it hands exactly that one event to the dispatcher and leaves the pending
queue as it was.  The overload with continuations decides in the same way, its
event carrying the continuations. -/
theorem C2_trigger_queues_or_sends (c : Channel) (e : String) (d : Object)
    (sc fc : Option cb_func) :
    if c.token = "" then
      (c.trigger e d).dispatcher = c.dispatcher ∧
      (c.trigger e d).event_queue
        = c.event_queue ++ [Event.mk1 (envelope e c.name d c.token c.connection_id)] ∧
      (c.triggerWith e d sc fc).dispatcher = c.dispatcher ∧
      (c.triggerWith e d sc fc).event_queue
        = c.event_queue ++ [{ data := envelope e c.name d c.token c.connection_id,
                              success_callback := sc, failure_callback := fc }]
    else
      (c.trigger e d).dispatcher.sent
        = c.dispatcher.sent ++ [Event.mk1 (envelope e c.name d c.token c.connection_id)] ∧
      (c.trigger e d).event_queue = c.event_queue ∧
      (c.triggerWith e d sc fc).dispatcher.sent
        = c.dispatcher.sent ++ [{ data := envelope e c.name d c.token c.connection_id,
                                  success_callback := sc, failure_callback := fc }] ∧
      (c.triggerWith e d sc fc).event_queue = c.event_queue := by
  by_cases h : c.token = ""
  · rw [if_pos h]
    simp [Channel.trigger, Channel.triggerWith, Channel.queueOrSend, Channel.getToken, h,
      Channel.triggerData_eq]
  · rw [if_neg h]
    simp [Channel.trigger, Channel.triggerWith, Channel.queueOrSend, Channel.getToken, h,
      Channel.triggerData_eq, WebsocketRails.triggerEvent]

/-! ## C3: the token-grant event flushes the queue in order -/

/-- C3: on a channel whose token is empty (and whose auxiliary queue `empty` is
empty, as it is from construction on), after any run of `trigger` calls the
pending queue holds the events queued before followed by the events of the run,
in call order, and nothing was sent; dispatch of the token-grant event with a
payload that has a string `token` then returns, calls no callback, hands exactly
the queued events to the dispatcher, each once and in the order in which they
were queued, and leaves the pending queue empty. -/
theorem C3_token_event_flushes_queue_in_order (run : cb_effect) (c : Channel)
    (calls : List TriggerCall) (payload : Object) (T : String)
    (htoken : c.token = "") (hempty : c.empty = [])
    (hT : payload.getString "token" = some T) :
    ∃ c2, Channel.dispatch run (c.triggerAll calls) "websocket_rails.channel_token" payload
            = some (c2, []) ∧
      (c.triggerAll calls).event_queue = c.event_queue ++ calls.map (TriggerCall.event c) ∧
      (c.triggerAll calls).dispatcher = c.dispatcher ∧
      c2.dispatcher.sent
        = c.dispatcher.sent ++ (c.event_queue ++ calls.map (TriggerCall.event c)) ∧
      c2.event_queue = [] := by
  rw [Channel.dispatch_token run _ payload T hT, Channel.triggerAll_queued c calls htoken]
  exact ⟨_, rfl, rfl, rfl, rfl, hempty⟩

/-- Witness of C3: the new channel "orders", two `trigger` calls, then the
token-grant event with token "T1". -/
theorem C3_witness :
    orders.token = "" ∧ orders.empty = [] ∧
    Object.getString [("token", Value.string "T1")] "token" = some "T1" ∧
    ∃ c2, Channel.dispatch idle
            (orders.triggerAll
              [TriggerCall.plain "ping" [("x", Value.number 1)],
               TriggerCall.withCallbacks "pong" [("x", Value.number 2)] (some 7) none])
            "websocket_rails.channel_token" [("token", Value.string "T1")]
            = some (c2, []) ∧
      (orders.triggerAll
          [TriggerCall.plain "ping" [("x", Value.number 1)],
           TriggerCall.withCallbacks "pong" [("x", Value.number 2)] (some 7) none]).event_queue
        = orders.event_queue ++
          [TriggerCall.plain "ping" [("x", Value.number 1)],
           TriggerCall.withCallbacks "pong" [("x", Value.number 2)] (some 7) none].map
            (TriggerCall.event orders) ∧
      (orders.triggerAll
          [TriggerCall.plain "ping" [("x", Value.number 1)],
           TriggerCall.withCallbacks "pong" [("x", Value.number 2)] (some 7) none]).dispatcher
        = orders.dispatcher ∧
      c2.dispatcher.sent
        = orders.dispatcher.sent ++ (orders.event_queue ++
          [TriggerCall.plain "ping" [("x", Value.number 1)],
           TriggerCall.withCallbacks "pong" [("x", Value.number 2)] (some 7) none].map
            (TriggerCall.event orders)) ∧
      c2.event_queue = [] :=
  ⟨rfl, rfl, by simp [Object.getString],
    C3_token_event_flushes_queue_in_order idle orders
      [TriggerCall.plain "ping" [("x", Value.number 1)],
       TriggerCall.withCallbacks "pong" [("x", Value.number 2)] (some 7) none]
      [("token", Value.string "T1")] "T1" rfl rfl (by simp [Object.getString])⟩

/-! ## C4: the token in a flushed envelope -/

/-- C4, counterexample: on the new channel "orders", `trigger("ping", {x:1})` and
then the token-grant event with token "T1" make the dispatcher receive, after the
subscribe event, the envelope with `token: ""`, which is not the envelope with
`token: "T1"`. -/
theorem C4_counterexample :
    ∃ c2, Channel.dispatch idle (orders.trigger "ping" [("x", Value.number 1)])
            "websocket_rails.channel_token" [("token", Value.string "T1")] = some (c2, []) ∧
      c2.dispatcher.sent
        = orders.dispatcher.sent ++
          [Event.mk1 (envelope "ping" "orders" [("x", Value.number 1)] "" "")] ∧
      c2.dispatcher.sent
        ≠ orders.dispatcher.sent ++
          [Event.mk1 (envelope "ping" "orders" [("x", Value.number 1)] "T1" "")] := by
  rw [Channel.dispatch_token idle _ _ "T1" (by simp [Object.getString])]
  refine ⟨_, rfl, ?_, ?_⟩
  · simp [Channel.trigger, Channel.queueOrSend, Channel.getToken, Channel.triggerData_eq,
      orders, Channel.new, Channel.initObject, Channel.fresh, Channel.setConnectionId,
      WebsocketRails.triggerEvent, noConn, WebsocketRails.currentConnectionId]
  · simp [Channel.trigger, Channel.queueOrSend, Channel.getToken, Channel.triggerData_eq,
      orders, Channel.new, Channel.initObject, Channel.fresh, Channel.setConnectionId,
      WebsocketRails.triggerEvent, noConn, WebsocketRails.currentConnectionId, Event.mk1,
      envelope]

/-- C4, amended: if `trigger(e, d)` is called while the token is empty and the
token-grant event is then dispatched with token `T`, the dispatch returns, the
stored token becomes `T`, and the envelope the dispatcher receives from the flush
(after the events queued earlier) is
`[e, {channel: name, data: d, token: ""}, connection_id]`: it carries the token
that was stored when `trigger` was called, the empty string. -/
theorem C4_flushed_envelope_has_token_of_trigger_time (run : cb_effect) (c : Channel)
    (e : String) (d payload : Object) (T : String)
    (htoken : c.token = "") (hT : payload.getString "token" = some T) :
    ∃ c2, Channel.dispatch run (c.trigger e d) "websocket_rails.channel_token" payload
            = some (c2, []) ∧
      c2.token = T ∧
      c2.dispatcher.sent
        = c.dispatcher.sent ++ c.event_queue ++
          [Event.mk1 [Value.string e,
            Value.object [("channel", Value.string c.name), ("data", Value.object d),
                          ("token", Value.string "")],
            Value.string c.connection_id]] := by
  rw [Channel.dispatch_token run _ payload T hT]
  refine ⟨_, rfl, rfl, ?_⟩
  simp [Channel.trigger, Channel.queueOrSend, Channel.getToken, htoken,
    Channel.triggerData_eq, envelope]

/-- Witness of C4 as amended: the scenario `trigger("ping", {x:1})`, then token
"T1", on the new channel "orders". -/
theorem C4_witness :
    orders.token = "" ∧
    Object.getString [("token", Value.string "T1")] "token" = some "T1" ∧
    ∃ c2, Channel.dispatch idle (orders.trigger "ping" [("x", Value.number 1)])
            "websocket_rails.channel_token" [("token", Value.string "T1")] = some (c2, []) ∧
      c2.token = "T1" ∧
      c2.dispatcher.sent
        = orders.dispatcher.sent ++ orders.event_queue ++
          [Event.mk1 [Value.string "ping",
            Value.object [("channel", Value.string orders.name),
                          ("data", Value.object [("x", Value.number 1)]),
                          ("token", Value.string "")],
            Value.string orders.connection_id]] :=
  ⟨rfl, by simp [Object.getString],
    C4_flushed_envelope_has_token_of_trigger_time idle orders "ping"
      [("x", Value.number 1)] [("token", Value.string "T1")] "T1" rfl
      (by simp [Object.getString])⟩

/-! ## C5: after the token-grant event -/

/-- C6: for every channel (name `n`, stored token `t`, stored connection id `c`),
event name `e` and payload `d`, the array `initEventData` writes is
`[e, {data: {channel: n}}, c]`, and the array both overloads of `trigger` build
from it, and queue or send, is `[e, P, c]` where `P` has exactly the three keys
`channel = n`, `data = d` and `token = t`: the placeholder `{channel: n}` under
`data` is replaced by `d`. -/
theorem C6_trigger_envelope_shape (c : Channel) (e : String) (d : Object)
    (sc fc : Option cb_func) :
    c.initEventData e
      = [Value.string e,
         Value.object [("data", Value.object [("channel", Value.string c.name)])],
         Value.string c.connection_id] ∧
    c.triggerData e d
      = [Value.string e,
         Value.object [("channel", Value.string c.name), ("data", Value.object d),
                       ("token", Value.string c.token)],
         Value.string c.connection_id] ∧
    c.trigger e d
      = c.queueOrSend
          { data := [Value.string e,
                     Value.object [("channel", Value.string c.name), ("data", Value.object d),
                                   ("token", Value.string c.token)],
                     Value.string c.connection_id],
            success_callback := none, failure_callback := none } ∧
    c.triggerWith e d sc fc
      = c.queueOrSend
          { data := [Value.string e,
                     Value.object [("channel", Value.string c.name), ("data", Value.object d),
                                   ("token", Value.string c.token)],
                     Value.string c.connection_id],
            success_callback := sc, failure_callback := fc } := by
  refine ⟨?_, ?_, ?_, ?_⟩
  · rw [Channel.initEventData_eq]; rfl
  · rw [Channel.triggerData_eq]; rfl
  · simp [Channel.trigger, Channel.triggerData_eq, envelope, Event.mk1]
  · simp [Channel.triggerWith, Channel.triggerData_eq, envelope]

/-! ## C7, C8: destroy -/

/-- C7: for every channel and dispatcher state, `destroy` hands exactly one event
to the dispatcher, the envelope
`["websocket_rails.unsubscribe", {data: {channel: name}}, connection_id]` with the
given continuations, when the stored connection id equals the current connection
id of the dispatcher (the empty string when it has no connection), and hands
nothing to the dispatcher otherwise; the connection of the dispatcher is left
alone. -/
theorem C7_destroy_unsubscribes_iff_same_connection (c : Channel)
    (sc fc : Option cb_func) :
    (c.destroy sc fc).dispatcher.sent
      = (if c.connection_id = (match c.dispatcher.conn with | some id => id | none => "") then
          c.dispatcher.sent ++
            [{ data := [Value.string "websocket_rails.unsubscribe",
                        Value.object [("data", Value.object [("channel", Value.string c.name)])],
                        Value.string c.connection_id],
               success_callback := sc, failure_callback := fc }]
         else c.dispatcher.sent) ∧
    (c.destroy sc fc).dispatcher.conn = c.dispatcher.conn := by
  unfold Channel.destroy
  by_cases h : c.getConnectionId = c.dispatcher.currentConnectionId
  · have h2 : c.connection_id
        = (match c.dispatcher.conn with | some id => id | none => "") := h
    simp only [if_pos h, if_pos h2]
    simp [WebsocketRails.triggerEvent, Channel.initEventData_eq, handshakeEnvelope]
  · have h2 : ¬ c.connection_id
        = (match c.dispatcher.conn with | some id => id | none => "") := h
    simp only [if_neg h, if_neg h2]
    simp

/-- C8: for every channel, whether or not the connection ids match, after
`destroy` the callback registry has no entry, the stored token and the pending
queue are what they were, and dispatch of any event other than the token-grant
event returns without calling a callback and leaves the channel as it is. -/
theorem C8_destroy_clears_callbacks_only (run : cb_effect) (c : Channel)
    (sc fc : Option cb_func) (e : String) (data : Object)
    (he : e ≠ "websocket_rails.channel_token") :
    (∀ k, (c.destroy sc fc).callbacks k = none) ∧
    (c.destroy sc fc).token = c.token ∧
    (c.destroy sc fc).event_queue = c.event_queue ∧
    Channel.dispatch run (c.destroy sc fc) e data = some (c.destroy sc fc, []) := by
  have hcb : ∀ k, (c.destroy sc fc).callbacks k = none := by
    intro k
    simp [Channel.destroy, map_vec_cb_func.clear]
  refine ⟨hcb, ?_, ?_, ?_⟩
  · unfold Channel.destroy
    by_cases h : c.getConnectionId = c.dispatcher.currentConnectionId <;> simp [h]
  · unfold Channel.destroy
    by_cases h : c.getConnectionId = c.dispatcher.currentConnectionId <;> simp [h]
  · unfold Channel.dispatch
    rw [if_neg he, hcb e]

/-- Witness of C8: the new channel "orders" with two callbacks bound and one
event queued, destroyed, then a dispatch of "order.created". -/
theorem C8_witness :
    "order.created" ≠ "websocket_rails.channel_token" ∧
    (∀ k, ((((orders.bind "order.created" 1).bind "order.created" 2).trigger "ping" []).destroy
        (some 3) none).callbacks k = none) ∧
    ((((orders.bind "order.created" 1).bind "order.created" 2).trigger "ping" []).destroy
        (some 3) none).token
      = (((orders.bind "order.created" 1).bind "order.created" 2).trigger "ping" []).token ∧
    ((((orders.bind "order.created" 1).bind "order.created" 2).trigger "ping" []).destroy
        (some 3) none).event_queue
      = (((orders.bind "order.created" 1).bind "order.created" 2).trigger "ping" []).event_queue ∧
    Channel.dispatch idle
        ((((orders.bind "order.created" 1).bind "order.created" 2).trigger "ping" []).destroy
          (some 3) none) "order.created" [("id", Value.number 5)]
      = some ((((orders.bind "order.created" 1).bind "order.created" 2).trigger "ping" []).destroy
          (some 3) none, []) :=
  ⟨by decide,
    C8_destroy_clears_callbacks_only idle
      (((orders.bind "order.created" 1).bind "order.created" 2).trigger "ping" [])
      (some 3) none "order.created" [("id", Value.number 5)] (by decide)⟩

/-! ## C9: unbindAll -/

/-- C9: for every registry and every event name `e`, the reserved token-grant
name included: `unbindAll(e)` changes nothing but the registry, where it removes
the entry of `e`; so afterwards the registry has no list for `e`, the channel is
as it was when `e` had no list, and the list of every other event name `k` is as
it was.  A dispatch of `e` after `unbindAll(e)` calls no callback: for a name
other than the token-grant name it returns at once with the channel as it is, and
for any name a dispatch that returns has called nothing. -/
theorem C9_unbindAll_removes_only_that_list (run : cb_effect) (c : Channel)
    (e : String) (data : Object) :
    c.unbindAll e = { c with callbacks := fun k => if k = e then none else c.callbacks k } ∧
    (c.unbindAll e).callbacks e = none ∧
    (c.callbacks e = none → c.unbindAll e = c) ∧
    (∀ k, k ≠ e → (c.unbindAll e).callbacks k = c.callbacks k) ∧
    (e ≠ "websocket_rails.channel_token" →
      Channel.dispatch run (c.unbindAll e) e data = some (c.unbindAll e, [])) ∧
    (∀ r, Channel.dispatch run (c.unbindAll e) e data = some r → r.2 = []) := by
  have hchar : c.unbindAll e
      = { c with callbacks := fun k => if k = e then none else c.callbacks k } := by
    unfold Channel.unbindAll
    by_cases h : c.callbacks e = none
    · have hf : (fun k => if k = e then none else c.callbacks k) = c.callbacks := by
        funext k
        by_cases hk : k = e
        · rw [if_pos hk, hk, h]
        · rw [if_neg hk]
      simp [h, hf]
    · simp only [ne_eq, h, not_false_eq_true, if_true]
      rfl
  have hnone : (c.unbindAll e).callbacks e = none := by
    rw [hchar]
    simp
  refine ⟨hchar, hnone, ?_, ?_, ?_, ?_⟩
  · intro h
    simp [Channel.unbindAll, h]
  · intro k hk
    rw [hchar]
    simp [hk]
  · intro he
    unfold Channel.dispatch
    rw [if_neg he, hnone]
  · intro r hr
    unfold Channel.dispatch at hr
    by_cases h2 : e = "websocket_rails.channel_token"
    · rw [if_pos h2] at hr
      cases hg : Object.getString data "token" with
      | none => simp [hg] at hr
      | some t =>
        simp only [hg] at hr
        cases hr
        rfl
    · rw [if_neg h2, hnone] at hr
      cases hr
      rfl

/-- Witness of C9: callbacks bound to "order.created" and to "other" on the new
channel "orders"; `unbindAll("order.created")` keeps the list of "other" and a
dispatch of "order.created" then calls nothing. -/
theorem C9_witness :
    "order.created" ≠ "websocket_rails.channel_token" ∧ "other" ≠ "order.created" ∧
    (((orders.bind "order.created" 1).bind "other" 2).unbindAll "order.created").callbacks
        "order.created" = none ∧
    (((orders.bind "order.created" 1).bind "other" 2).unbindAll "order.created").callbacks
        "other"
      = ((orders.bind "order.created" 1).bind "other" 2).callbacks "other" ∧
    Channel.dispatch idle
        (((orders.bind "order.created" 1).bind "other" 2).unbindAll "order.created")
        "order.created" [("id", Value.number 5)]
      = some (((orders.bind "order.created" 1).bind "other" 2).unbindAll "order.created", []) :=
  ⟨by decide, by decide,
    (C9_unbindAll_removes_only_that_list idle ((orders.bind "order.created" 1).bind "other" 2)
      "order.created" [("id", Value.number 5)]).2.1,
    (C9_unbindAll_removes_only_that_list idle ((orders.bind "order.created" 1).bind "other" 2)
      "order.created" [("id", Value.number 5)]).2.2.2.1 "other" (by decide),
    (C9_unbindAll_removes_only_that_list idle ((orders.bind "order.created" 1).bind "other" 2)
      "order.created" [("id", Value.number 5)]).2.2.2.2.1 (by decide)⟩

/-! ## C10: construction -/

/-- C10: for every name `n`, privacy flag `p`, continuations and dispatcher state,
each constructor hands exactly one event to the dispatcher, the envelope
`[E, {data: {channel: n}}, id]` with the continuations of the constructor (none
for the constructor without continuations), where `E` is
"websocket_rails.subscribe_private" if `p` is true and "websocket_rails.subscribe"
otherwise and `id` is the current connection id of the dispatcher (the empty
string when it has no connection); the new channel stores `id` as its connection
id and has an empty token, an empty pending queue, an empty auxiliary queue and a
registry with no entry. -/
theorem C10_constructor_subscribes (n : String) (p : Bool) (d : WebsocketRails)
    (os ofl : Option cb_func) :
    (Channel.newWith n d p os ofl).dispatcher.sent
      = d.sent ++
        [{ data := [Value.string (if p then "websocket_rails.subscribe_private"
                                  else "websocket_rails.subscribe"),
                    Value.object [("data", Value.object [("channel", Value.string n)])],
                    Value.string (match d.conn with | some id => id | none => "")],
           success_callback := os, failure_callback := ofl }] ∧
    (Channel.newWith n d p os ofl).dispatcher.conn = d.conn ∧
    (Channel.newWith n d p os ofl).connection_id
      = (match d.conn with | some id => id | none => "") ∧
    (Channel.newWith n d p os ofl).token = "" ∧
    (Channel.newWith n d p os ofl).event_queue = [] ∧
    (Channel.newWith n d p os ofl).empty = [] ∧
    (∀ k, (Channel.newWith n d p os ofl).callbacks k = none) ∧
    (Channel.newWith n d p os ofl).name = n ∧
    (Channel.newWith n d p os ofl).is_private = p ∧
    Channel.new n d p = Channel.newWith n d p none none := by
  refine ⟨?_, rfl, rfl, rfl, rfl, rfl, fun _ => rfl, rfl, rfl, rfl⟩
  simp [Channel.newWith, Channel.initObject, Channel.fresh, Channel.setConnectionId,
    WebsocketRails.triggerEvent, Channel.initEventData_eq, handshakeEnvelope,
    WebsocketRails.currentConnectionId]

/-! ## C11: a second token-grant event -/

/-- C11: on a channel whose auxiliary queue `empty` is empty (as it is from
construction on), dispatching the token-grant event with token `T1` and then,
with no call in between, with token `T2`: both dispatches return, the second one
hands nothing to the dispatcher and calls no callback, and afterwards the stored
token is `T2` and the pending queue is empty. -/
theorem C11_second_token_event_updates_token (run : cb_effect) (c : Channel)
    (p1 p2 : Object) (T1 T2 : String) (hempty : c.empty = [])
    (h1 : p1.getString "token" = some T1) (h2 : p2.getString "token" = some T2) :
    ∃ c1 c2,
      Channel.dispatch run c "websocket_rails.channel_token" p1 = some (c1, []) ∧
      Channel.dispatch run c1 "websocket_rails.channel_token" p2 = some (c2, []) ∧
      c1.token = T1 ∧ c2.token = T2 ∧
      c2.dispatcher = c1.dispatcher ∧
      c2.event_queue = [] ∧ c2.empty = [] := by
  refine ⟨_, _, Channel.dispatch_token run c p1 T1 h1, Channel.dispatch_token run _ p2 T2 h2,
    rfl, rfl, ?_, rfl, rfl⟩
  simp [hempty]

/-- Witness of C11: one queued event on the new channel "orders", then the tokens
"T1" and "T2". -/
theorem C11_witness :
    (orders.trigger "ping" []).empty = [] ∧
    Object.getString [("token", Value.string "T1")] "token" = some "T1" ∧
    Object.getString [("token", Value.string "T2")] "token" = some "T2" ∧
    ∃ c1 c2,
      Channel.dispatch idle (orders.trigger "ping" []) "websocket_rails.channel_token"
        [("token", Value.string "T1")] = some (c1, []) ∧
      Channel.dispatch idle c1 "websocket_rails.channel_token"
        [("token", Value.string "T2")] = some (c2, []) ∧
      c1.token = "T1" ∧ c2.token = "T2" ∧
      c2.dispatcher = c1.dispatcher ∧
      c2.event_queue = [] ∧ c2.empty = [] :=
  ⟨rfl, by simp [Object.getString], by simp [Object.getString],
    C11_second_token_event_updates_token idle (orders.trigger "ping" [])
      [("token", Value.string "T1")] [("token", Value.string "T2")] "T1" "T2" rfl
      (by simp [Object.getString]) (by simp [Object.getString])⟩

/-! ## C12: the writers of the token -/

theorem Channel.invokeAll_token (run : cb_effect) (event_data : Object)
    (hrun : ∀ cb d c, (run cb d c).token = c.token) (cbs : List cb_func) (c : Channel) :
    (Channel.invokeAll run event_data cbs c).1.token = c.token := by
  induction cbs generalizing c with
  | nil => rfl
  | cons cb rest ih => simp [Channel.invokeAll, ih, hrun]

theorem Channel.destroy_frame (c : Channel) (sc fc : Option cb_func) :
    (c.destroy sc fc).token = c.token ∧ (c.destroy sc fc).event_queue = c.event_queue ∧
    (c.destroy sc fc).empty = c.empty ∧ (c.destroy sc fc).name = c.name ∧
    (c.destroy sc fc).connection_id = c.connection_id := by
  unfold Channel.destroy
  by_cases h : c.getConnectionId = c.dispatcher.currentConnectionId <;> simp [h]

theorem Channel.queueOrSend_frame (c : Channel) (ev : Event) :
    (c.queueOrSend ev).token = c.token ∧ (c.queueOrSend ev).empty = c.empty ∧
    (c.queueOrSend ev).name = c.name ∧
    (c.queueOrSend ev).connection_id = c.connection_id ∧
    (c.queueOrSend ev).callbacks = c.callbacks := by
  unfold Channel.queueOrSend
  by_cases h : c.getToken = "" <;> simp [h]

theorem Channel.unbindAll_frame (c : Channel) (e : String) :
    c.unbindAll e = { c with callbacks := (c.unbindAll e).callbacks } := by
  unfold Channel.unbindAll
  by_cases h : c.callbacks e = none <;> simp [h]

/-- C12: for every channel, each of `bind`, `unbindAll`, `trigger` (both
overloads), `setCallbacks` and `destroy` leaves the stored token as it was, for
every argument, the reserved token-grant name included as event name; and so does
`dispatch` of any event name `e` other than the token-grant name, which returns,
when the callbacks it runs do not write the token themselves. -/
theorem C12_only_token_event_writes_token (run : cb_effect) (c : Channel)
    (eb eu et ew e : String) (cb : cb_func) (dt dw d : Object) (sc fc sd fd : Option cb_func)
    (m : map_vec_cb_func)
    (he : e ≠ "websocket_rails.channel_token")
    (hrun : ∀ cb d c, (run cb d c).token = c.token) :
    (c.bind eb cb).token = c.token ∧
    (c.unbindAll eu).token = c.token ∧
    (c.trigger et dt).token = c.token ∧
    (c.triggerWith ew dw sc fc).token = c.token ∧
    (c.setCallbacks m).token = c.token ∧
    (c.destroy sd fd).token = c.token ∧
    ∃ r, Channel.dispatch run c e d = some r ∧ r.1.token = c.token := by
  refine ⟨rfl, ?_, (Channel.queueOrSend_frame c _).1, (Channel.queueOrSend_frame c _).1, rfl,
    (Channel.destroy_frame c sd fd).1, ?_⟩
  · rw [Channel.unbindAll_frame]
  · unfold Channel.dispatch
    rw [if_neg he]
    cases h : c.callbacks e with
    | none => exact ⟨_, rfl, rfl⟩
    | some cbs => exact ⟨_, rfl, Channel.invokeAll_token run d hrun cbs c⟩

/-- Witness of C12: the new channel "orders" with a callback bound, under
callbacks that call back into the registry; `bind`, `unbindAll` and both
overloads of `trigger` are called with the reserved token-grant name. -/
theorem C12_witness :
    "order.created" ≠ "websocket_rails.channel_token" ∧
    (∀ cb d c, (rebinding cb d c).token = c.token) ∧
    ((orders.bind "order.created" 1).bind "websocket_rails.channel_token" 4).token
      = (orders.bind "order.created" 1).token ∧
    ((orders.bind "order.created" 1).unbindAll "websocket_rails.channel_token").token
      = (orders.bind "order.created" 1).token ∧
    ((orders.bind "order.created" 1).trigger "websocket_rails.channel_token"
        [("token", Value.string "T1")]).token
      = (orders.bind "order.created" 1).token ∧
    ((orders.bind "order.created" 1).triggerWith "websocket_rails.channel_token"
        [("token", Value.string "T1")] (some 5) none).token
      = (orders.bind "order.created" 1).token ∧
    ((orders.bind "order.created" 1).setCallbacks map_vec_cb_func.clear).token
      = (orders.bind "order.created" 1).token ∧
    ((orders.bind "order.created" 1).destroy (some 5) none).token
      = (orders.bind "order.created" 1).token ∧
    ∃ r, Channel.dispatch rebinding (orders.bind "order.created" 1) "order.created" []
          = some r ∧ r.1.token = (orders.bind "order.created" 1).token :=
  have hreb : ∀ cb d c, (rebinding cb d c).token = c.token := by
    intro cb d c
    unfold rebinding
    by_cases h1 : cb = 1
    · simp [h1, Channel.bind]
    · by_cases h3 : cb = 3
      · simp [h3]
        rw [Channel.unbindAll_frame]
      · simp [h1, h3]
  ⟨by decide, hreb,
    C12_only_token_event_writes_token rebinding (orders.bind "order.created" 1)
      "websocket_rails.channel_token" "websocket_rails.channel_token"
      "websocket_rails.channel_token" "websocket_rails.channel_token" "order.created" 4
      [("token", Value.string "T1")] [("token", Value.string "T1")] []
      (some 5) none (some 5) none map_vec_cb_func.clear (by decide) hreb⟩

/-! ## C13: the names of the subscribe and token-grant events -/

/-- C13, counterexample: `Channel("orders", dispatcher, false)` on a dispatcher
with no connection does not make the dispatcher receive the envelope named
"rails.subscribe", and a dispatch of "rails.channel_token" with token "T1"
returns without installing the token or flushing the queue. -/
theorem C13_counterexample :
    (Channel.new "orders" noConn false).dispatcher.sent
      ≠ [{ data := [Value.string "rails.subscribe",
                    Value.object [("data", Value.object [("channel", Value.string "orders")])],
                    Value.string ""],
           success_callback := none, failure_callback := none }] ∧
    Channel.dispatch idle ((Channel.new "orders" noConn false).trigger "ping" [])
        "rails.channel_token" [("token", Value.string "T1")]
      = some ((Channel.new "orders" noConn false).trigger "ping" [], []) ∧
    ((Channel.new "orders" noConn false).trigger "ping" []).token = "" ∧
    ((Channel.new "orders" noConn false).trigger "ping" []).event_queue ≠ [] := by
  refine ⟨?_, ?_, rfl, ?_⟩
  · simp [Channel.new, Channel.initObject, Channel.fresh, Channel.setConnectionId,
      WebsocketRails.triggerEvent, noConn, Channel.initEventData_eq, handshakeEnvelope]
  · unfold Channel.dispatch
    rw [if_neg (by decide)]
    rfl
  · simp [Channel.trigger, Channel.queueOrSend, Channel.getToken, Channel.new,
      Channel.initObject, Channel.fresh, Channel.setConnectionId]

/-- C13, amended: `Channel("orders", dispatcher, false)` on a dispatcher with no
connection makes the dispatcher receive exactly one event, the envelope
`["websocket_rails.subscribe", {data: {channel: "orders"}}, ""]`; and the event
name whose dispatch installs the token and flushes the queue is
"websocket_rails.channel_token": with a payload of token `T` on that channel
after one queued `trigger`, the dispatch returns, stores `T`, sends the queued
event and empties the queue. -/
theorem C13_subscribe_and_token_event_names (run : cb_effect) (T : String) :
    (Channel.new "orders" noConn false).dispatcher.sent
      = [{ data := [Value.string "websocket_rails.subscribe",
                    Value.object [("data", Value.object [("channel", Value.string "orders")])],
                    Value.string ""],
           success_callback := none, failure_callback := none }] ∧
    ∃ c2, Channel.dispatch run ((Channel.new "orders" noConn false).trigger "ping" [])
            "websocket_rails.channel_token" [("token", Value.string T)] = some (c2, []) ∧
      c2.token = T ∧ c2.event_queue = [] ∧
      c2.dispatcher.sent
        = (Channel.new "orders" noConn false).dispatcher.sent ++
          [Event.mk1 (envelope "ping" "orders" [] "" "")] := by
  refine ⟨?_, ?_⟩
  · simp [Channel.new, Channel.initObject, Channel.fresh, Channel.setConnectionId,
      WebsocketRails.triggerEvent, noConn, Channel.initEventData_eq, handshakeEnvelope,
      WebsocketRails.currentConnectionId]
  · rw [Channel.dispatch_token run _ _ T (by simp [Object.getString])]
    refine ⟨_, rfl, rfl, rfl, ?_⟩
    simp [Channel.trigger, Channel.queueOrSend, Channel.getToken, Channel.triggerData_eq,
      Channel.new, Channel.initObject, Channel.fresh, Channel.setConnectionId,
      WebsocketRails.triggerEvent, noConn, WebsocketRails.currentConnectionId]

/-! ## C14: the guards of the pending queue -/

/-- C14: the mutex `trigger` holds while it pushes to the pending queue is not the
mutex `flush_queue` holds, so the two are not serialized; and in the schedule
these two mutexes allow, where the push of a `trigger` that read the empty token
lands between the loop and the swap of `flush_queue`, the pushed event is not
handed to the dispatcher and is not in the pending queue afterwards: it sits in
the auxiliary queue. -/
theorem C14_flush_and_trigger_hold_different_mutexes (c : Channel) (event : Event) :
    Channel.triggerGuard ≠ Channel.flush_queueGuard ∧
    (c.flush_queue_racing event).dispatcher.sent = c.dispatcher.sent ++ c.event_queue ∧
    (c.flush_queue_racing event).event_queue = c.empty ∧
    (c.flush_queue_racing event).empty = [event] := by
  refine ⟨by decide, ?_, rfl, ?_⟩
  · simp [Channel.flush_queue_racing, Channel.flushLoop_eq]
  · simp [Channel.flush_queue_racing, Channel.flushLoop_eq]

/-! ## C15: dispatch works on the list as it was at entry -/

theorem Channel.invokeAll_state (run : cb_effect) (event_data : Object)
    (cbs : List cb_func) (c : Channel) :
    (Channel.invokeAll run event_data cbs c).1
      = cbs.foldl (fun s cb => run cb event_data s) c := by
  induction cbs generalizing c with
  | nil => rfl
  | cons cb rest ih => simp [Channel.invokeAll, ih]

theorem Channel.dispatch_ordinary (run : cb_effect) (c : Channel) (e : String)
    (data : Object) (he : e ≠ "websocket_rails.channel_token") :
    Channel.dispatch run c e data
      = some (((c.callbacks e).getD []).foldl (fun s cb => run cb data s) c,
              ((c.callbacks e).getD []).map (fun cb => (cb, data))) := by
  unfold Channel.dispatch
  rw [if_neg he]
  cases h : c.callbacks e with
  | none => rfl
  | some cbs =>
    simp only [Option.getD_some]
    rw [← Channel.invokeAll_state, ← Channel.invokeAll_calls run data cbs c]

/-- C15: for every registry, every behaviour of the callbacks (they may call
`bind`, `unbindAll` or `setCallbacks` on the channel while they run) and every
event name `e` other than the token-grant name, `dispatch(e, data)` returns and
the callbacks it calls, and their order, are those of the list of `e` as it was
when `dispatch` was entered; the channel afterwards is the channel after the
effects of these calls, in order, and a later dispatch of `e` works in the same
way on the list of `e` in that channel. -/
theorem C15_dispatch_invokes_list_at_entry (run : cb_effect) (c : Channel) (e : String)
    (data : Object) (he : e ≠ "websocket_rails.channel_token") :
    ∃ c2 c3,
      Channel.dispatch run c e data
        = some (c2, ((c.callbacks e).getD []).map (fun cb => (cb, data))) ∧
      c2 = ((c.callbacks e).getD []).foldl (fun s cb => run cb data s) c ∧
      Channel.dispatch run c2 e data
        = some (c3, ((c2.callbacks e).getD []).map (fun cb => (cb, data))) :=
  ⟨_, _, Channel.dispatch_ordinary run c e data he, rfl,
    Channel.dispatch_ordinary run _ e data he⟩

/-- Witness of C15: callback 1, bound to "order.created" on the new channel
"orders", binds callback 2 to "order.created" when it runs. -/
theorem C15_witness :
    "order.created" ≠ "websocket_rails.channel_token" ∧
    ∃ c2 c3,
      Channel.dispatch rebinding (orders.bind "order.created" 1) "order.created" []
        = some (c2, (((orders.bind "order.created" 1).callbacks "order.created").getD []).map
            (fun cb => (cb, []))) ∧
      c2 = (((orders.bind "order.created" 1).callbacks "order.created").getD []).foldl
            (fun s cb => rebinding cb [] s) (orders.bind "order.created" 1) ∧
      Channel.dispatch rebinding c2 "order.created" []
        = some (c3, ((c2.callbacks "order.created").getD []).map (fun cb => (cb, []))) :=
  ⟨by decide,
    C15_dispatch_invokes_list_at_entry rebinding (orders.bind "order.created" 1)
      "order.created" [] (by decide)⟩

/-! ## C16: the connection id after the token-grant event -/

/-- C17: for every registry and payload, `dispatch` of
"websocket_rails.channel_token" takes the token branch: it fails when the payload
has no string `token`, and otherwise returns the channel with the connection id
and the token set and the queue flushed, with no callback called.  This is so
also when the registry holds a non-empty list for that name, as it does after a
`bind` to it. -/
theorem C17_token_event_calls_no_callback (run : cb_effect) (c : Channel)
    (data : Object) (cb : cb_func) :
    Channel.dispatch run c "websocket_rails.channel_token" data
      = (data.getString "token").map (fun token =>
          (((c.setConnectionId c.dispatcher.currentConnectionId).setToken token).flush_queue,
            [])) ∧
    (Channel.dispatch run c "websocket_rails.channel_token" data).map Prod.snd
      = (data.getString "token").map (fun _ => []) ∧
    (c.bind "websocket_rails.channel_token" cb).callbacks "websocket_rails.channel_token"
      = some ((c.callbacks "websocket_rails.channel_token").getD [] ++ [cb]) ∧
    (Channel.dispatch run (c.bind "websocket_rails.channel_token" cb)
        "websocket_rails.channel_token" data).map Prod.snd
      = (data.getString "token").map (fun _ => []) := by
  have key : ∀ s : Channel,
      Channel.dispatch run s "websocket_rails.channel_token" data
        = (data.getString "token").map (fun token =>
            (((s.setConnectionId s.dispatcher.currentConnectionId).setToken token).flush_queue,
              [])) := by
    intro s
    unfold Channel.dispatch
    cases h : Object.getString data "token" <;> simp
  refine ⟨key c, ?_, ?_, ?_⟩
  · rw [key c]
    cases h : Object.getString data "token" <;> simp
  · rw [Channel.bind_callbacks]
    simp
  · rw [key]
    cases h : Object.getString data "token" <;> simp

/-! ## Invariants of the runs of operations -/

theorem TriggerCall.event_isTrigger (c : Channel) (call : TriggerCall) :
    (TriggerCall.event c call).isTrigger = true := by
  cases call <;>
    simp [TriggerCall.event, Channel.triggerData_eq, envelope, Event.isTrigger, Event.mk1]

theorem handshake_not_isTrigger (event_name name id : String) (sc fc : Option cb_func) :
    Event.isTrigger { data := handshakeEnvelope event_name name id,
                      success_callback := sc, failure_callback := fc } = false := by
  simp [handshakeEnvelope, Event.isTrigger]

theorem Channel.Inv_registry (c : Channel) (m : map_vec_cb_func) (h : c.Inv) :
    Channel.Inv { c with callbacks := m } := h

theorem Channel.invokeAll_frame (run : cb_effect) (hrun : cb_effect.registryOnly run)
    (event_data : Object) (cbs : List cb_func) (c : Channel) :
    (Channel.invokeAll run event_data cbs c).1
      = { c with callbacks := (Channel.invokeAll run event_data cbs c).1.callbacks } := by
  induction cbs generalizing c with
  | nil => rfl
  | cons cb rest ih =>
    simp only [Channel.invokeAll]
    rw [ih (run cb event_data c)]
    rw [hrun cb event_data c]

theorem Channel.step_spec (run : cb_effect) (hrun : cb_effect.registryOnly run)
    (c c2 : Channel) (op : Op) (hinv : c.Inv) (hstep : c.step run op = some c2) :
    c2.Inv ∧ ∃ log, c2.dispatcher.sent = c.dispatcher.sent ++ log ∧
      log.filter Event.isTrigger ++ c2.event_queue = c.event_queue ++ Op.built c op := by
  have hreg : ∀ s : Channel, s = { c with callbacks := s.callbacks } → Op.built c op = [] →
      s.Inv ∧ ∃ log, s.dispatcher.sent = c.dispatcher.sent ++ log ∧
        log.filter Event.isTrigger ++ s.event_queue = c.event_queue ++ Op.built c op := by
    intro s hs hb
    rw [hs, hb]
    exact ⟨hinv, [], by simp, by simp⟩
  cases op with
  | bind e cb =>
    simp only [Channel.step, Option.some.injEq] at hstep
    subst hstep
    exact hreg _ rfl rfl
  | unbindAll e =>
    simp only [Channel.step, Option.some.injEq] at hstep
    subst hstep
    exact hreg _ (Channel.unbindAll_frame c e) rfl
  | setCallbacks m =>
    simp only [Channel.step, Option.some.injEq] at hstep
    subst hstep
    exact hreg _ rfl rfl
  | reconnect conn =>
    simp only [Channel.step, Option.some.injEq] at hstep
    subst hstep
    exact ⟨hinv, [], by simp [Channel.reconnect], by simp [Channel.reconnect, Op.built]⟩
  | destroy sc fc =>
    simp only [Channel.step, Option.some.injEq] at hstep
    subst hstep
    obtain ⟨ht, hq, he, _, _⟩ := Channel.destroy_frame c sc fc
    refine ⟨⟨by rw [he]; exact hinv.1, by rw [ht, hq]; exact hinv.2.1,
      by rw [hq]; exact hinv.2.2⟩, ?_⟩
    by_cases h : c.getConnectionId = c.dispatcher.currentConnectionId
    · refine ⟨[{ data := handshakeEnvelope "websocket_rails.unsubscribe" c.name c.connection_id,
                 success_callback := sc, failure_callback := fc }], ?_, ?_⟩
      · simp [Channel.destroy, h, WebsocketRails.triggerEvent, Channel.initEventData_eq]
      · rw [hq]
        simp [handshake_not_isTrigger, Op.built]
    · refine ⟨[], ?_, ?_⟩
      · simp [Channel.destroy, h]
      · rw [hq]
        simp [Op.built]
  | trigger call =>
    simp only [Channel.step, Option.some.injEq] at hstep
    subst hstep
    by_cases ht : c.token = ""
    · rw [Channel.applyTrigger_queued c call ht]
      refine ⟨⟨hinv.1, fun h => absurd ht h, ?_⟩, [], by simp, by simp [Op.built]⟩
      intro ev hev
      rcases List.mem_append.mp hev with h | h
      · exact hinv.2.2 ev h
      · rw [List.mem_singleton.mp h]
        exact TriggerCall.event_isTrigger c call
    · rw [Channel.applyTrigger_sent c call ht]
      have hq : c.event_queue = [] := hinv.2.1 ht
      refine ⟨hinv, [TriggerCall.event c call], rfl, ?_⟩
      simp [hq, Op.built, TriggerCall.event_isTrigger]
  | dispatch e d =>
    simp only [Channel.step] at hstep
    by_cases he : e = "websocket_rails.channel_token"
    · subst he
      cases hg : Object.getString d "token" with
      | none => simp [Channel.dispatch, hg] at hstep
      | some T =>
        rw [Channel.dispatch_token run c d T hg] at hstep
        simp only [Option.map_some', Option.some.injEq] at hstep
        subst hstep
        refine ⟨⟨rfl, ?_, ?_⟩, c.event_queue, rfl, ?_⟩
        · intro _
          exact hinv.1
        · intro ev hev
          have h0 : c.empty = [] := hinv.1
          simp [h0] at hev
        · have h0 : c.empty = [] := hinv.1
          have hf : c.event_queue.filter Event.isTrigger = c.event_queue :=
            List.filter_eq_self.mpr hinv.2.2
          simp [h0, hf, Op.built]
    · rw [Channel.dispatch_ordinary run c e d he] at hstep
      simp only [Option.map_some', Option.some.injEq] at hstep
      subst hstep
      rw [← Channel.invokeAll_state]
      exact hreg _ (Channel.invokeAll_frame run hrun d _ c) rfl

theorem Channel.runOps_spec (run : cb_effect) (hrun : cb_effect.registryOnly run)
    (ops : List Op) (c c2 : Channel) (hinv : c.Inv)
    (h : Channel.runOps run c ops = some c2) :
    c2.Inv ∧ ∃ log, c2.dispatcher.sent = c.dispatcher.sent ++ log ∧
      log.filter Event.isTrigger ++ c2.event_queue
        = c.event_queue ++ Channel.builtBy run c ops := by
  induction ops generalizing c with
  | nil =>
    simp only [Channel.runOps, Option.some.injEq] at h
    subst h
    exact ⟨hinv, [], by simp, by simp [Channel.builtBy]⟩
  | cons op rest ih =>
    simp only [Channel.runOps] at h
    cases hs : c.step run op with
    | none => simp [hs] at h
    | some c1 =>
      simp only [hs] at h
      obtain ⟨hinv1, l1, hl1, hb1⟩ := Channel.step_spec run hrun c c1 op hinv hs
      obtain ⟨hinv2, l2, hl2, hb2⟩ := ih c1 hinv1 h
      refine ⟨hinv2, l1 ++ l2, by rw [hl2, hl1, List.append_assoc], ?_⟩
      simp only [Channel.builtBy, hs, List.filter_append, List.append_assoc]
      rw [hb2, ← List.append_assoc, hb1, List.append_assoc]

theorem Channel.newWith_spec (n : String) (d : WebsocketRails) (p : Bool)
    (os ofl : Option cb_func) :
    (Channel.newWith n d p os ofl).Inv ∧
    (Channel.newWith n d p os ofl).event_queue = [] ∧
    ∃ ev, (Channel.newWith n d p os ofl).dispatcher.sent = d.sent ++ [ev] ∧
      ev.isTrigger = false := by
  refine ⟨⟨rfl, fun _ => rfl, ?_⟩, rfl, ?_⟩
  · intro ev hev
    have : (Channel.newWith n d p os ofl).event_queue = [] := rfl
    rw [this] at hev
    simp at hev
  · refine ⟨_, ?_, handshake_not_isTrigger
      (if p then "websocket_rails.subscribe_private" else "websocket_rails.subscribe")
      n d.currentConnectionId os ofl⟩
    simp [Channel.newWith, Channel.initObject, Channel.fresh, Channel.setConnectionId,
      WebsocketRails.triggerEvent, Channel.initEventData_eq]

theorem rebinding_registryOnly : cb_effect.registryOnly rebinding := by
  intro cb d c
  unfold rebinding
  by_cases h1 : cb = 1
  · simp [h1, Channel.bind]
  · by_cases h3 : cb = 3
    · simp only [h3]
      exact Channel.unbindAll_frame c "order.created"
    · simp [h1, h3]

theorem ordersOps_run :
    Channel.runOps rebinding (Channel.newWith "orders" noConn false none none) ordersOps
      = some ordersAfterOps := by
  simp [ordersOps, ordersAfterOps, Channel.runOps, Channel.step, Channel.applyTrigger,
    Channel.dispatch, Object.getString]
  rfl

/-! ## C18: no event is left in the queue in the sending mode -/

/-- C18: in every state reached from a constructor by a run of `bind`,
`unbindAll`, `setCallbacks`, `trigger`, `dispatch` and `destroy` calls that all
return (and reconnects of the transport), with a dispatcher that does not call
back and callbacks that change the registry only, a non-empty stored token goes
with an empty pending queue, and the auxiliary queue swapped in by `flush_queue`
is empty. -/
theorem C18_nonempty_token_implies_empty_queue (run : cb_effect)
    (n : String) (d : WebsocketRails) (p : Bool) (os ofl : Option cb_func)
    (ops : List Op) (c : Channel)
    (hrun : cb_effect.registryOnly run)
    (h : Channel.runOps run (Channel.newWith n d p os ofl) ops = some c) :
    (c.token ≠ "" → c.event_queue = []) ∧ c.empty = [] := by
  obtain ⟨hinv, _⟩ :=
    Channel.runOps_spec run hrun ops _ c (Channel.newWith_spec n d p os ofl).1 h
  exact ⟨hinv.2.1, hinv.1⟩

/-- Witness of C18: the channel "orders", a `bind`, a `trigger` that is queued,
the token-grant event with token "T1" and a `trigger` that is sent. -/
theorem C18_witness :
    cb_effect.registryOnly rebinding ∧
    Channel.runOps rebinding (Channel.newWith "orders" noConn false none none) ordersOps
      = some ordersAfterOps ∧
    (ordersAfterOps.token ≠ "" → ordersAfterOps.event_queue = []) ∧
    ordersAfterOps.empty = [] :=
  ⟨rebinding_registryOnly, ordersOps_run,
    C18_nonempty_token_implies_empty_queue rebinding "orders" noConn false none none
      ordersOps ordersAfterOps rebinding_registryOnly ordersOps_run⟩

/-! ## C19: no triggered envelope is lost, duplicated or reordered -/

/-- C19: in every state reached from a constructor (on a dispatcher that had
been handed the events `d.sent` before) by a run of channel operations that all
return, with a dispatcher that does not call back and callbacks that change the
registry only: the events with the shape of a trigger envelope that the
dispatcher was handed since, in the order in which it got them, followed by the
content of the pending queue, are the events built by all `trigger` calls of the
run, in call order. -/
theorem C19_triggered_envelopes_sent_or_queued_in_order (run : cb_effect)
    (n : String) (d : WebsocketRails) (p : Bool) (os ofl : Option cb_func)
    (ops : List Op) (c : Channel)
    (hrun : cb_effect.registryOnly run)
    (h : Channel.runOps run (Channel.newWith n d p os ofl) ops = some c) :
    (c.dispatcher.sent.drop d.sent.length).filter Event.isTrigger ++ c.event_queue
      = Channel.builtBy run (Channel.newWith n d p os ofl) ops := by
  obtain ⟨hinv0, hq0, ev, hs0, hev⟩ := Channel.newWith_spec n d p os ofl
  obtain ⟨_, log, hlog, hb⟩ := Channel.runOps_spec run hrun ops _ c hinv0 h
  rw [hq0, List.nil_append] at hb
  rw [hlog, hs0, List.append_assoc, List.drop_left, ← hb]
  simp [List.filter_cons, hev]

/-- Witness of C19: the run `ordersOps` on the channel "orders"; the dispatcher
got the envelopes of "ping" (from the flush) and "pong", in that order. -/
theorem C19_witness :
    cb_effect.registryOnly rebinding ∧
    Channel.runOps rebinding (Channel.newWith "orders" noConn false none none) ordersOps
      = some ordersAfterOps ∧
    (ordersAfterOps.dispatcher.sent.drop noConn.sent.length).filter Event.isTrigger
        ++ ordersAfterOps.event_queue
      = Channel.builtBy rebinding (Channel.newWith "orders" noConn false none none) ordersOps :=
  ⟨rebinding_registryOnly, ordersOps_run,
    C19_triggered_envelopes_sent_or_queued_in_order rebinding "orders" noConn false none none
      ordersOps ordersAfterOps rebinding_registryOnly ordersOps_run⟩

/-! ## C20: the routing id of a queued envelope -/

theorem Channel.triggerAll_connection_id (c : Channel) (calls : List TriggerCall) :
    (c.triggerAll calls).connection_id = c.connection_id := by
  by_cases h : c.token = ""
  · rw [Channel.triggerAll_queued c calls h]
  · rw [Channel.triggerAll_sent c calls h]

theorem TriggerCall.event_routing_id (c : Channel) (call : TriggerCall) :
    (TriggerCall.event c call).data.get? 2 = some (Value.string c.connection_id) := by
  cases call <;> simp [TriggerCall.event, Channel.triggerData_eq, envelope, Event.mk1]

/-- C20: if `trigger(e, d)` is called while the stored connection id is `A` and
the token is empty, the transport then runs under the current id `B`, and the
token-grant event is dispatched (payload with a string `token`): the dispatch
returns, the event the flush hands to the dispatcher (after the events queued
earlier) is the envelope built at the call, with routing id `A`; the stored id
becomes `B`, and the envelope of every `trigger` call made after that dispatch
(after any run of further `trigger` calls) has routing id `B`. -/
theorem C20_queued_envelope_keeps_routing_id (run : cb_effect) (c : Channel)
    (e : String) (d payload : Object) (conn : Option String) (T : String)
    (htoken : c.token = "") (hT : payload.getString "token" = some T) :
    ∃ c2, Channel.dispatch run ((c.trigger e d).reconnect conn)
            "websocket_rails.channel_token" payload = some (c2, []) ∧
      c2.dispatcher.sent
        = c.dispatcher.sent ++ c.event_queue ++
          [Event.mk1 [Value.string e,
            Value.object [("channel", Value.string c.name), ("data", Value.object d),
                          ("token", Value.string "")],
            Value.string c.connection_id]] ∧
      c2.connection_id = (match conn with | some id => id | none => "") ∧
      ∀ calls call,
        (TriggerCall.event (c2.triggerAll calls) call).data.get? 2
          = some (Value.string (match conn with | some id => id | none => "")) := by
  rw [Channel.dispatch_token run _ payload T hT]
  refine ⟨_, rfl, ?_, rfl, ?_⟩
  · simp [Channel.reconnect, Channel.trigger, Channel.queueOrSend, Channel.getToken, htoken,
      Channel.triggerData_eq, envelope]
  · intro calls call
    rw [TriggerCall.event_routing_id, Channel.triggerAll_connection_id]
    rfl

/-- Witness of C20: the channel "orders" constructed under the connection "A",
a `trigger` that is queued, a reconnect under "B", then the token "T1". -/
theorem C20_witness :
    (Channel.new "orders" connA false).token = "" ∧
    Object.getString [("token", Value.string "T1")] "token" = some "T1" ∧
    ∃ c2, Channel.dispatch idle
            (((Channel.new "orders" connA false).trigger "ping" []).reconnect (some "B"))
            "websocket_rails.channel_token" [("token", Value.string "T1")] = some (c2, []) ∧
      c2.dispatcher.sent
        = (Channel.new "orders" connA false).dispatcher.sent ++
          (Channel.new "orders" connA false).event_queue ++
          [Event.mk1 [Value.string "ping",
            Value.object [("channel", Value.string (Channel.new "orders" connA false).name),
                          ("data", Value.object []), ("token", Value.string "")],
            Value.string (Channel.new "orders" connA false).connection_id]] ∧
      c2.connection_id = (match some "B" with | some id => id | none => "") ∧
      ∀ calls call,
        (TriggerCall.event (c2.triggerAll calls) call).data.get? 2
          = some (Value.string (match some "B" with | some id => id | none => "")) :=
  ⟨rfl, by simp [Object.getString],
    C20_queued_envelope_keeps_routing_id idle (Channel.new "orders" connA false) "ping" []
      [("token", Value.string "T1")] (some "B") "T1" rfl (by simp [Object.getString])⟩

/-! ## The scenarios, evaluated -/

theorem rebinding_scenario :
    Channel.dispatch rebinding (orders.bind "order.created" 1) "order.created" []
      = some ((orders.bind "order.created" 1).bind "order.created" 2, [(1, [])]) ∧
    (Channel.dispatch rebinding ((orders.bind "order.created" 1).bind "order.created" 2)
        "order.created" []).map Prod.snd
      = some [(1, []), (2, [])] := by
  refine ⟨?_, ?_⟩
  · rw [Channel.dispatch_ordinary _ _ _ _ (by decide), Channel.bind_callbacks]
    simp [orders, Channel.new, Channel.initObject, Channel.fresh, Channel.setConnectionId,
      map_vec_cb_func.clear, rebinding]
  · rw [Channel.dispatch_ordinary _ _ _ _ (by decide)]
    simp [Channel.bind_callbacks, rebinding, orders, Channel.new, Channel.initObject,
      Channel.fresh, Channel.setConnectionId, map_vec_cb_func.clear]

theorem ordersOps_scenario :
    Channel.builtBy rebinding (Channel.newWith "orders" noConn false none none) ordersOps
      = [Event.mk1 (envelope "ping" "orders" [] "" ""),
         Event.mk1 (envelope "pong" "orders" [] "T1" "")] ∧
    ordersAfterOps.dispatcher.sent.drop 1
      = [Event.mk1 (envelope "ping" "orders" [] "" ""),
         Event.mk1 (envelope "pong" "orders" [] "T1" "")] ∧
    ordersAfterOps.event_queue = [] ∧ ordersAfterOps.token = "T1" := by
  refine ⟨?_, ?_, ?_, rfl⟩
  · simp [ordersOps, Channel.builtBy, Channel.step, Op.built, TriggerCall.event,
      Channel.triggerData_eq, Channel.dispatch, Object.getString, Channel.applyTrigger,
      Channel.trigger, Channel.queueOrSend, Channel.getToken, Channel.bind, Channel.newWith,
      Channel.initObject, Channel.fresh, Channel.setConnectionId, Channel.setToken,
      Channel.flush_queue, noConn, WebsocketRails.currentConnectionId,
      WebsocketRails.triggerEvent]
  · simp [ordersAfterOps, Channel.triggerData_eq, Channel.trigger, Channel.queueOrSend,
      Channel.getToken, Channel.bind, Channel.newWith, Channel.initObject, Channel.fresh,
      Channel.setConnectionId, Channel.setToken, Channel.flush_queue, noConn,
      WebsocketRails.currentConnectionId, WebsocketRails.triggerEvent, Channel.flushLoop_eq]
  · simp [ordersAfterOps, Channel.triggerData_eq, Channel.trigger, Channel.queueOrSend,
      Channel.getToken, Channel.bind, Channel.newWith, Channel.initObject, Channel.fresh,
      Channel.setConnectionId, Channel.setToken, Channel.flush_queue, noConn,
      WebsocketRails.currentConnectionId, WebsocketRails.triggerEvent, Channel.flushLoop_eq]
